import Mathlib

/-!
Verification of the Stoa block-indexing service against its
natural-language specification.

The definitions below are a shallow embedding of the TypeScript source
(the `Stoa` class in `src/modules/common/Config.ts` and, where the
repository ships only callers or tests of a routine, a model built from
the words of the specification, marked `Modelled from the spec:`).

Conventions of the embedding:
 - block heights (JSBI / UInt64 in the source) are `Nat`; the one place
   the source computes a possibly negative quantity (`max_blocks` in
   `recoverBlock`) is embedded over `Int`;
 - the ledger store is the list of committed blocks in commit order;
   `getExpectedBlockHeight` is its length (spec section 4.3: one past the
   maximum committed height, 0 if empty, heights dense from 0);
 - promises are embedded as values: a promise that resolves is `some` or
   `Except.ok`, a promise that rejects is `Except.error`, and a promise
   that never settles is `none`;
 - the serialized task queue means every mutation is a pure state
   transition, which the embedding takes as given.
-/

namespace Stoa

/-- A committed block: only its height and an abstract body matter to the
ingestion pipeline. -/
structure Block where
  height : Nat
  body : Nat
  deriving DecidableEq, Repr, Inhabited

/-- Observable events of a run: `commit h` is the return of
`ledger_storage.putBlocks` for the block at height `h`; `emit h` is
`emitBlock` (the `new_block` and `new_transaction` push events); `stats h`
is `emitBoaStats`. -/
inductive Event where
  | commit (h : Nat)
  | emit (h : Nat)
  | stats (h : Nat)
  deriving DecidableEq, Repr

/-- The mutable state of the service: committed blocks in commit order and
the chronological trace of observable events. -/
structure StoaState where
  blocks : List Block
  trace : List Event
  deriving DecidableEq, Repr

/-- `ledger_storage.getExpectedBlockHeight`: one past the maximum
committed height, which for the dense chain kept by the intake algorithm
is the number of committed blocks. -/
def expectedHeight (s : StoaState) : Nat := s.blocks.length

/-- `ledger_storage.putBlocks`: commits a block (transactionally in the
source; atomically here). -/
def putBlocks (s : StoaState) (b : Block) : StoaState :=
  { blocks := s.blocks ++ [b], trace := s.trace ++ [Event.commit b.height] }

/-- `emitBlock`: pushes the `new_block` and `new_transaction` events for a
block. -/
def emitBlockEv (s : StoaState) (b : Block) : StoaState :=
  { s with trace := s.trace ++ [Event.emit b.height] }

/-- `emitBoaStats`: pushes the `latest_stats` event. -/
def emitStatsEv (s : StoaState) (b : Block) : StoaState :=
  { s with trace := s.trace ++ [Event.stats b.height] }

/-- The event suffix produced by committing one block with events:
`putBlocks` then `emitBlock` then `emitBoaStats`. -/
def blockEvents (b : Block) : List Event :=
  [Event.commit b.height, Event.emit b.height, Event.stats b.height]

/-- Concatenated event suffixes for a list of blocks committed in order
with events. -/
def eventsFor : List Block → List Event
  | [] => []
  | b :: rest => blockEvents b ++ eventsFor rest

/-- `agora.getBlocksFrom(start, count)`: the consensus client serves the
slice of its chain starting at `start`, at most `count` blocks (spec
section 4.2: a contiguous prefix, possibly shorter than requested). -/
def getBlocksFrom (chain : List Block) (start count : Nat) : List Block :=
  (chain.drop start).take count

/-- The `max_blocks` computation at the head of `Stoa.recoverBlock`:
`height - expected_height`, plus one when no submitted block accompanies
the call (the catch-up path), capped at `_max_count_on_recovery` = 64.
Computed over `Int` exactly as the JSBI arithmetic in the source. -/
def recoveryMaxBlocks (isNull : Bool) (height expected : Nat) : Int :=
  let max0 : Int := (height : Int) - (expected : Int) + (if isNull then 1 else 0)
  if max0 > 64 then 64 else max0

/-- The `for (let block of blocks)` loop inside `Stoa.recoverBlock`: each
fetched block whose height equals the running `expected_height` is
committed (`putBlocks`, `emitBlock`, `emitBoaStats`) and the height
advances; a mismatching block resolves the pass with `false` (the third
component), keeping what was already committed. -/
def commitLoop (s : StoaState) (e : Nat) : List Block → StoaState × Nat × Bool
  | [] => (s, e, true)
  | b :: rest =>
    if b.height = e then
      commitLoop (emitStatsEv (emitBlockEv (putBlocks s b) b) b) (e + 1) rest
    else
      (s, e, false)

/-- `Stoa.recoverBlock`: one recovery pass. Fetches at most
`recoveryMaxBlocks` blocks from the consensus client starting at the
current expected height, commits the matching contiguous prefix, then, if
the expected height has reached the submitted height, commits the
submitted block (when present) WITHOUT emitting events and resolves
`true`; otherwise resolves `false`. -/
def recoverBlock (chain : List Block) (blk : Option Block) (height : Nat)
    (s : StoaState) : StoaState × Bool :=
  let e := expectedHeight s
  let maxb := recoveryMaxBlocks blk.isNone height e
  let step : StoaState × Nat × Bool :=
    if maxb > 0 then commitLoop s e (getBlocksFrom chain e maxb.toNat)
    else (s, e, true)
  match step with
  | (s1, e1, ok) =>
    if ok then
      if height ≤ e1 then
        (match blk with
         | some b => (putBlocks s1 b, true)
         | none => (s1, true))
      else (s1, false)
    else (s1, false)

/-- The `while (true)` recovery loop in the block branch of `Stoa.task`:
run `recoverBlock`; stop when it resolves `true`, otherwise re-read the
expected height from the store (here: recompute it from the state) and
loop. `fuel` bounds the number of passes; `none` models the loop not
having terminated within `fuel` passes. -/
def taskBlockLoop (chain : List Block) (b : Block) : Nat → StoaState → Option StoaState
  | 0, _ => none
  | fuel + 1, s =>
    match recoverBlock chain (some b) b.height s with
    | (s1, true) => some s1
    | (s1, false) => taskBlockLoop chain b fuel s1

/-- The block branch of `Stoa.task`: the three-case intake algorithm on a
parsed block. Equal heights commit directly with events; a higher height
enters the recovery loop; a lower height is ignored. -/
def task (chain : List Block) (fuel : Nat) (b : Block) (s : StoaState) :
    Option StoaState :=
  let height := b.height
  let expected := expectedHeight s
  if height = expected then
    some (emitStatsEv (emitBlockEv (putBlocks s b) b) b)
  else if height > expected then
    taskBlockLoop chain b fuel s
  else
    some s

/-- Chain well-formedness, from position `i`: the consensus client chain
lists blocks of consecutive heights. -/
def chainWFfrom : Nat → List Block → Bool
  | _, [] => true
  | i, b :: rest => b.height = i && chainWFfrom (i + 1) rest

/-- The consensus client chain is dense from height 0. -/
def chainWF (chain : List Block) : Bool := chainWFfrom 0 chain

end Stoa

namespace Stoa

/-! ### POST /block_externalized and the JSON parse stage of the task -/

/-- The `header` member of a submitted block JSON object: its `height`
member may be absent. -/
structure JsonHeader where
  height : Option Nat
  deriving DecidableEq, Repr

/-- A submitted block JSON object: the `header` member may be absent;
`body` abstracts the rest of the block content. -/
structure JsonBlock where
  header : Option JsonHeader
  body : Nat
  deriving DecidableEq, Repr

/-- The height member of a block JSON object, when both it and the header
are present. -/
def headerHeight (jb : JsonBlock) : Option Nat :=
  match jb.header with
  | none => none
  | some hd => hd.height

/-- `Stoa.getJsonBlockHeight`: throws when `block.header` or
`block.header.height` is undefined, otherwise returns the height. -/
def getJsonBlockHeight (jb : JsonBlock) : Except String Nat :=
  match jb.header with
  | none => Except.error "Not found block height in JSON Block"
  | some hd =>
    match hd.height with
    | none => Except.error "Not found block height in JSON Block"
    | some h => Except.ok h

/-- The body of a POST /block_externalized request: the top-level `block`
member may be absent. -/
structure PostBlockBody where
  blockField : Option JsonBlock
  deriving DecidableEq, Repr

/-- The observable outcome of the `Stoa.postBlock` handler: the HTTP
status it sends, and whether a task for the contained block was chained
onto the serial queue. -/
structure PostOutcome where
  status : Nat
  enqueued : Bool
  deriving DecidableEq, Repr

/-- `Stoa.postBlock`: a missing top-level `block` member is rejected with
400; otherwise the block is enqueued unexamined and 200 is sent
immediately. -/
def postBlock (body : PostBlockBody) : PostOutcome :=
  match body.blockField with
  | none => { status := 400, enqueued := false }
  | some _ => { status := 200, enqueued := true }

/-- The block branch of `Stoa.task` on the raw queued JSON: the height is
parsed first (`Stoa.getJsonBlockHeight`); a parse failure is caught and
rejects the promise of the queued task (`Except.error`), otherwise the
three-case intake runs on the parsed block. -/
def taskJson (chain : List Block) (fuel : Nat) (s : StoaState)
    (jb : JsonBlock) : Except String (Option StoaState) :=
  match getJsonBlockHeight jb with
  | Except.error e => Except.error e
  | Except.ok h => Except.ok (task chain fuel { height := h, body := jb.body } s)

/-! ### Pagination (`Stoa.paginate`) -/

/-- A query-string parameter as the pagination code observes it: absent,
the canonical decimal rendering of an integer `n` (negative integers
render with a leading minus sign), or a string that is not numeric. -/
inductive Param where
  | absent
  | intStr (n : Int)
  | nonNumeric
  deriving DecidableEq, Repr

/-- Modelled from the spec: `Utils.isPositiveInteger` of the supporting
library (its implementation is not under `src/`), as constrained by
section 4.6 of the spec, which keeps height 0 valid while rejecting
non-numeric, negative, or non-integer parameters: the string must be an
unsigned decimal integer (an optional leading plus sign, then digits), so
it accepts the rendering of any `n ≥ 0` and rejects negative renderings
and non-numeric strings. -/
def isPositiveInteger : Param → Bool
  | Param.absent => false
  | Param.intStr n => decide (0 ≤ n)
  | Param.nonNumeric => false

/-- The JavaScript test `Number(x) !== 0` on a present parameter: the
rendering of 0 converts to the number 0; other integer renderings convert
to themselves and non-numeric strings to NaN, both different from 0. -/
def numberIsZero : Param → Bool
  | Param.intStr n => decide (n = 0)
  | _ => false

/-- The numeric value of a parameter that passed `isPositiveInteger`. -/
def paramValue : Param → Nat
  | Param.intStr n => n.toNat
  | _ => 0

/-- The resolved value of `Stoa.paginate`. -/
structure Pagination where
  page : Nat
  pageSize : Nat
  deriving DecidableEq, Repr

/-- The observable outcome of one `Stoa.paginate` call: the statuses it
sent on the response itself, and the value its returned promise resolved
with (`none` when the promise never settles). -/
structure PaginateOutcome where
  sent : List Nat
  result : Option Pagination
  deriving DecidableEq, Repr

/-- `Stoa.limit_page_size`. -/
def limit_page_size : Nat := 100

/-- The `pageSize` half of `Stoa.paginate`, run with the
already-determined page number: `pageSize` defaults to 10 when absent,
otherwise it must pass `isPositiveInteger` and be at most
`limit_page_size` = 100, else 400 is sent and the promise is left
pending. -/
def paginateSize (page : Nat) (pageSize : Param) : PaginateOutcome :=
  if pageSize ≠ Param.absent then
    if isPositiveInteger pageSize = false then
      { sent := [400], result := none }
    else if paramValue pageSize > limit_page_size then
      { sent := [400], result := none }
    else
      { sent := [], result := some { page := page, pageSize := paramValue pageSize } }
  else
    { sent := [], result := some { page := page, pageSize := 10 } }

/-- `Stoa.paginate`: `page` defaults to 1 when absent or when
`Number(page) === 0`, otherwise it must pass `isPositiveInteger` or 400
is sent and the promise is left pending; then the `pageSize` half
(`paginateSize`) runs. -/
def paginate (page pageSize : Param) : PaginateOutcome :=
  if page ≠ Param.absent ∧ numberIsZero page = false then
    if isPositiveInteger page = false then
      { sent := [400], result := none }
    else
      paginateSize (paramValue page) pageSize
  else
    paginateSize 1 pageSize

/-- The run of a paginated read handler (the shape shared by
`getLatestBlocks`, `getLatestTransactions`, `getBoaHolders`, ...): it
awaits `Stoa.paginate` and only if that promise resolves does it query
the store and send its own response. An await of a never-settling promise
never resumes, so a validation failure leaves exactly the 400 sent by
`paginate` and no store query. -/
def pagedHandler (page pageSize : Param) : List Nat × Bool :=
  match (paginate page pageSize).result with
  | none => ((paginate page pageSize).sent, false)
  | some _ => ((paginate page pageSize).sent ++ [200], true)

end Stoa

namespace Stoa

/-! ### Read endpoints (statuses and textual bodies) -/

/-- The result of one ledger store query as seen by a read handler:
either the rows or value it produced, or a transient store failure
(the rejected promise caught by the `.catch` of the handler). -/
inductive StoreResult (α : Type) where
  | ok (value : α)
  | failure
  deriving DecidableEq, Repr

/-- An HTTP response as the handlers build it: a status code and a
textual body. -/
structure Response where
  status : Nat
  body : String
  deriving DecidableEq, Repr

/-- A row of `getValidatorsAPI`; only its presence matters to the status
logic, the enrichment of the 200 body is elided. -/
structure ValidatorRow where
  address : Nat
  deriving DecidableEq, Repr

/-- `Stoa.getBlockHeight`, the GET /block_height handler, applied to the
outcome of the `ledger_storage.getBlockHeight()` query: a null row (an
empty store) is answered with 400, a height with 200, a store failure
with 500. -/
def getBlockHeightResponse (store : StoreResult (Option Nat)) : Response :=
  match store with
  | StoreResult.ok none => { status := 400, body := "The block height not found." }
  | StoreResult.ok (some h) => { status := 200, body := toString h }
  | StoreResult.failure => { status := 500, body := "Failed to data lookup" }

/-- `Stoa.getValidators`, the GET /validators handler, applied to the
already-validated optional height parameter and the outcome of the
`getValidatorsAPI` query: no rows is answered with 400 when a height was
given and 503 otherwise, rows with 200 (body elided), a store failure
with 500. -/
def getValidatorsResponse (height : Option Nat)
    (store : StoreResult (List ValidatorRow)) : Response :=
  match store with
  | StoreResult.ok rows =>
    if rows.length = 0 then
      match height with
      | some _ => { status := 400, body := "No validator exists for block height." }
      | none => { status := 503, body := "Stoa is currently unavailable." }
    else { status := 200, body := "" }
  | StoreResult.failure => { status := 500, body := "Failed to data lookup" }

/-- `Stoa.getBlockHeightAt`, the GET /block_height_at/:time handler,
applied after its parameter validation to the outcome of the
`getEstimatedBlockHeight` query: a null height is answered with 204, a
height with 200, a store failure with 500. -/
def getBlockHeightAtResponse (store : StoreResult (Option Nat)) : Response :=
  match store with
  | StoreResult.ok none => { status := 204, body := "No Content" }
  | StoreResult.ok (some h) => { status := 200, body := toString h }
  | StoreResult.failure => { status := 500, body := "Failed to data lookup" }

/-- `Stoa.getWalletBlocksHeader`, the GET /wallet/blocks/header handler,
applied after its parameter validation to the rows of the
`getWalletBlocksHeaderInfo` query: no rows is answered with 204, rows
with 200 (body elided), a store failure with 500. -/
def getWalletBlocksHeaderResponse (store : StoreResult (List Nat)) : Response :=
  match store with
  | StoreResult.ok rows =>
    if rows.length = 0 then { status := 204, body := "No blocks" }
    else { status := 200, body := "" }
  | StoreResult.failure => { status := 500, body := "Failed to data lookup" }

/-- `Stoa.getLatestBlocks`, the GET /latest-blocks handler, applied
after pagination to the outcome of the `getLatestBlocks` store query.
The handler attaches no failure catch to the query, so a rejected store
promise sends no response at all (`none`); a query that resolves with
undefined data is answered 500, an empty row set 204, and rows 200
(body elided). -/
def getLatestBlocksResponse (store : StoreResult (Option (List Nat))) : Option Response :=
  match store with
  | StoreResult.ok none => some { status := 500, body := "Failed to data lookup" }
  | StoreResult.ok (some rows) =>
    if rows.length = 0 then some { status := 204, body := "The data does not exist." }
    else some { status := 200, body := "" }
  | StoreResult.failure => none

/-- `Stoa.getLatestTransactions`, the GET /latest-transactions handler:
the same shape as `getLatestBlocksResponse`, and likewise without a
failure catch on its store query. -/
def getLatestTransactionsResponse (store : StoreResult (Option (List Nat))) : Option Response :=
  match store with
  | StoreResult.ok none => some { status := 500, body := "Failed to data lookup" }
  | StoreResult.ok (some rows) =>
    if rows.length = 0 then some { status := 204, body := "The data does not exist." }
    else some { status := 200, body := "" }
  | StoreResult.failure => none

/-- The public read endpoints of spec section 6 that this source file
registers (the /proposals read endpoints are not in this file, and the
administrative and price-feed endpoints are outside the scope the spec
draws in section 1). GET /validators appears twice because its no-data
answer depends on whether a height parameter was supplied. -/
inductive ReadEndpoint where
  | blockHeight
  | blockHeightAt
  | validatorsWithHeight
  | validatorsNoHeight
  | validator
  | transactionPending
  | transaction
  | transactionStatus
  | transactionFees
  | utxo
  | utxos
  | walletTxHistory
  | walletTxOverview
  | walletTxPending
  | walletBlocksHeader
  | latestBlocks
  | latestTransactions
  | blockSummary
  | blockEnrollments
  | blockTransactions
  | boaStats
  | spv
  | holders
  deriving DecidableEq, Fintype

/-- Whether the handler of the endpoint attaches a catch to its store
query: every read handler does, except `getLatestBlocks` and
`getLatestTransactions`. -/
def hasFailureCatch : ReadEndpoint → Bool
  | ReadEndpoint.latestBlocks => false
  | ReadEndpoint.latestTransactions => false
  | _ => true

/-- The status the handler sends when its store query rejects: the
uniform catch answers 500 with the text Failed to data lookup; the two
handlers without a catch send nothing (`none`). -/
def storeFailureStatus (ep : ReadEndpoint) : Option Nat :=
  if hasFailureCatch ep then some 500 else none

/-- The status each handler sends when its store query resolves but the
lookup finds no matching data, read off the source handler by handler.
blockHeight answers a null row with 400; blockHeightAt 204; validators
with a height 400 and without one 503; validator 400;
transactionPending and transaction answer a null row with 204;
transactionStatus 500 (the handler has no empty branch and dereferences
the row, so the thrown error lands in its catch); transactionFees is
`none` (the endpoint performs no lookup by key, a miss cannot occur);
utxo, utxos and walletTxHistory 200 (an empty row set flows through the
success path as an empty JSON array); walletTxOverview, walletTxPending
and walletBlocksHeader 204; latestBlocks and latestTransactions 204;
blockSummary, blockEnrollments and blockTransactions 204; boaStats 500
(a missing stats row is answered with the failure text); spv 200 (a
missing transaction is reported as a verification result that is
false); holders 204. -/
def emptyLookupStatus : ReadEndpoint → Option Nat
  | ReadEndpoint.blockHeight => some 400
  | ReadEndpoint.blockHeightAt => some 204
  | ReadEndpoint.validatorsWithHeight => some 400
  | ReadEndpoint.validatorsNoHeight => some 503
  | ReadEndpoint.validator => some 400
  | ReadEndpoint.transactionPending => some 204
  | ReadEndpoint.transaction => some 204
  | ReadEndpoint.transactionStatus => some 500
  | ReadEndpoint.transactionFees => none
  | ReadEndpoint.utxo => some 200
  | ReadEndpoint.utxos => some 200
  | ReadEndpoint.walletTxHistory => some 200
  | ReadEndpoint.walletTxOverview => some 204
  | ReadEndpoint.walletTxPending => some 204
  | ReadEndpoint.walletBlocksHeader => some 204
  | ReadEndpoint.latestBlocks => some 204
  | ReadEndpoint.latestTransactions => some 204
  | ReadEndpoint.blockSummary => some 204
  | ReadEndpoint.blockEnrollments => some 204
  | ReadEndpoint.blockTransactions => some 204
  | ReadEndpoint.boaStats => some 500
  | ReadEndpoint.spv => some 200
  | ReadEndpoint.holders => some 204

/-- The read endpoints whose answer to a lookup that finds no matching
data deviates from 204. -/
def isEmpty204Exception : ReadEndpoint → Bool
  | ReadEndpoint.blockHeight => true
  | ReadEndpoint.validatorsWithHeight => true
  | ReadEndpoint.validatorsNoHeight => true
  | ReadEndpoint.validator => true
  | ReadEndpoint.transactionStatus => true
  | ReadEndpoint.utxo => true
  | ReadEndpoint.utxos => true
  | ReadEndpoint.walletTxHistory => true
  | ReadEndpoint.boaStats => true
  | ReadEndpoint.spv => true
  | _ => false

/-! ### Pre-Image Registry (`update_preimage`) -/

/-- A row of the pre-image registry: the enrollment it is anchored at and
the monotone tip of the published hash chain. -/
structure PreImageRow where
  utxo_key : Nat
  anchor : Nat
  cycle_length : Nat
  tip_height : Nat
  tip_hash : Nat
  deriving DecidableEq, Repr

/-- A pre-image advance submitted for a validator. -/
structure PreImageSubmission where
  utxo_key : Nat
  tip_height : Nat
  tip_hash : Nat
  deriving DecidableEq, Repr

/-- The registry row for a utxo key (the first row with that key). -/
def lookupPre : List PreImageRow → Nat → Option PreImageRow
  | [], _ => none
  | r :: rest, k => if r.utxo_key = k then some r else lookupPre rest k

/-- Modelled from the spec: `update_preimage(pre_image)` of the Ledger
Store (its implementation is not under `src/`; `Stoa.task` only calls
it). Spec section 4.3: monotonic, accepts only if the submitted
tip_height is strictly greater than the stored tip_height for that
utxo_key and the tip_height is less than anchor + cycle_length; returns
whether a row changed. Spec section 4.1: a submission for an unknown
utxo_key is dropped silently. -/
def update_preimage : List PreImageRow → PreImageSubmission → List PreImageRow × Bool
  | [], _ => ([], false)
  | r :: rest, p =>
    if r.utxo_key = p.utxo_key then
      if r.tip_height < p.tip_height ∧ p.tip_height < r.anchor + r.cycle_length then
        ({ r with tip_height := p.tip_height, tip_hash := p.tip_hash } :: rest, true)
      else
        (r :: rest, false)
    else
      ((r :: (update_preimage rest p).1, (update_preimage rest p).2))

/-! ### Governance Engine (ballot acceptance and the tally) -/

/-- A decoded ballot answer, or the REJECT stamp. -/
inductive BallotAnswer where
  | YES
  | NO
  | BLANK
  | REJECT
  deriving DecidableEq, Repr

/-- The voting window of a proposal. -/
structure ProposalWindow where
  vote_start_height : Nat
  vote_end_height : Nat
  deriving DecidableEq, Repr

/-- The outcomes of the ballot acceptance rules other than the height
window (spec section 4.5, rules 2 to 4): the VoterCard and BallotData
signatures verify, the validator is in the active set at the height of
the block, and no earlier accepted ballot of the validator has a
strictly greater sequence. -/
structure BallotChecks where
  sigs_ok : Bool
  validator_active : Bool
  sequence_ok : Bool
  deriving DecidableEq, Repr

/-- Modelled from the spec: the ballot acceptance rules of the Governance
Engine (not under `src/`; `tests/Congress.test.ts` exercises them
through the service). Spec section 4.5, rule 1: the block containing the
ballot tx must satisfy vote_start_height ≤ h ≤ vote_end_height,
otherwise REJECT; rules 2 to 4 must also pass. -/
def ballotAccepted (w : ProposalWindow) (h : Nat) (c : BallotChecks) : Bool :=
  decide (w.vote_start_height ≤ h) && decide (h ≤ w.vote_end_height) &&
    c.sigs_ok && c.validator_active && c.sequence_ok

/-- A persisted ballot row: the height of the block that carried it and
whether it was stamped REJECT. -/
structure BallotRow where
  height : Nat
  rejected : Bool
  deriving DecidableEq, Repr

/-- Modelled from the spec: a ballot-bearing tx committed at height `h`
is validated and persisted; any rule failure stamps the row REJECT but
the row is stored all the same, for audit. -/
def recordBallot (rows : List BallotRow) (w : ProposalWindow) (h : Nat)
    (c : BallotChecks) : List BallotRow :=
  rows ++ [{ height := h, rejected := !ballotAccepted w h c }]

/-- The status of a proposal. -/
inductive ProposalStatus where
  | PENDING
  | VOTING
  | COUNTING_VOTES
  | ASSESSING
  | CLOSED
  deriving DecidableEq, Repr

/-- The result of a proposal as the API exposes it. -/
inductive ProposalResult where
  | PENDING
  | PASSED
  | REJECTED
  deriving DecidableEq, Repr

/-- Modelled from the spec: the result rule of the Governance Engine (not
under `src/`; `tests/Congress.test.ts` exercises it through the
service). PASSED when a strict majority of the decoded answers among
YES and NO is YES (BLANK and REJECT are excluded from that denominator)
and at least the ceiling of N/3 of the active validator committee of
size N voted; REJECTED otherwise. Voters are the accepted ballots whose
answer decoded, REJECT rows decode to nothing. -/
def tallyResult (answers : List BallotAnswer) (committee : Nat) : ProposalResult :=
  let yes := answers.count BallotAnswer.YES
  let no := answers.count BallotAnswer.NO
  let blank := answers.count BallotAnswer.BLANK
  let voted := yes + no + blank
  if no < yes ∧ (committee + 2) / 3 ≤ voted then ProposalResult.PASSED
  else ProposalResult.REJECTED

/-- Modelled from the spec: while a proposal is in PENDING, VOTING or
COUNTING_VOTES status the externally visible result field is PENDING;
once the tally has run (ASSESSING, CLOSED) the tallied result shows. -/
def externalResult (st : ProposalStatus) (tallied : ProposalResult) : ProposalResult :=
  match st with
  | ProposalStatus.PENDING => ProposalResult.PENDING
  | ProposalStatus.VOTING => ProposalResult.PENDING
  | ProposalStatus.COUNTING_VOTES => ProposalResult.PENDING
  | ProposalStatus.ASSESSING => tallied
  | ProposalStatus.CLOSED => tallied

end Stoa

namespace Stoa

/-! ### Sanity examples -/

example : chainWF [⟨0, 0⟩, ⟨1, 5⟩, ⟨2, 7⟩] = true := by decide

example :
    task [⟨0, 0⟩, ⟨1, 5⟩] 1 ⟨2, 9⟩ { blocks := [⟨0, 0⟩], trace := [] } =
      some { blocks := [⟨0, 0⟩, ⟨1, 5⟩, ⟨2, 9⟩],
             trace := [Event.commit 1, Event.emit 1, Event.stats 1, Event.commit 2] } := by
  decide

example :
    task [] 0 ⟨0, 3⟩ { blocks := [], trace := [] } =
      some { blocks := [⟨0, 3⟩],
             trace := [Event.commit 0, Event.emit 0, Event.stats 0] } := by
  decide

example :
    task [] 0 ⟨0, 3⟩ { blocks := [⟨0, 3⟩], trace := [] } =
      some { blocks := [⟨0, 3⟩], trace := [] } := by
  decide

example : paginate Param.absent Param.absent =
    { sent := [], result := some { page := 1, pageSize := 10 } } := by decide

example : paginate (Param.intStr 0) Param.absent =
    { sent := [], result := some { page := 1, pageSize := 10 } } := by decide

example : paginate (Param.intStr (-3)) Param.absent =
    { sent := [400], result := none } := by decide

example : paginate Param.absent (Param.intStr 0) =
    { sent := [], result := some { page := 1, pageSize := 0 } } := by decide

example : paginate Param.absent (Param.intStr 101) =
    { sent := [400], result := none } := by decide

example : paginate (Param.intStr 3) (Param.intStr 100) =
    { sent := [], result := some { page := 3, pageSize := 100 } } := by decide

example :
    tallyResult [BallotAnswer.YES, BallotAnswer.NO, BallotAnswer.BLANK, BallotAnswer.YES] 6 =
      ProposalResult.PASSED := by decide

example :
    tallyResult [BallotAnswer.YES, BallotAnswer.NO, BallotAnswer.NO, BallotAnswer.BLANK] 6 =
      ProposalResult.REJECTED := by decide

example :
    ballotAccepted { vote_start_height := 10, vote_end_height := 15 } 6
      { sigs_ok := true, validator_active := true, sequence_ok := true } = false := by decide

example :
    ballotAccepted { vote_start_height := 10, vote_end_height := 15 } 10
      { sigs_ok := true, validator_active := true, sequence_ok := true } = true := by decide

example :
    update_preimage [(⟨1, 0, 20, 7, 70⟩ : PreImageRow)] ⟨1, 5, 50⟩ =
      ([(⟨1, 0, 20, 7, 70⟩ : PreImageRow)], false) := by decide

example :
    update_preimage [(⟨1, 0, 20, 7, 70⟩ : PreImageRow)] ⟨1, 9, 90⟩ =
      ([(⟨1, 0, 20, 9, 90⟩ : PreImageRow)], true) := by decide

end Stoa

namespace Stoa

/-! ### Lemmas about the intake pipeline -/

theorem commitOne_eq (s : StoaState) (b : Block) :
    emitStatsEv (emitBlockEv (putBlocks s b) b) b =
      { blocks := s.blocks ++ [b], trace := s.trace ++ blockEvents b } := by
  simp [putBlocks, emitBlockEv, emitStatsEv, blockEvents]

theorem eventsFor_append (l1 l2 : List Block) :
    eventsFor (l1 ++ l2) = eventsFor l1 ++ eventsFor l2 := by
  induction l1 with
  | nil => simp [eventsFor]
  | cons b rest ih => simp [eventsFor, ih]

theorem chainWFfrom_take (k : Nat) :
    ∀ (i : Nat) (l : List Block), chainWFfrom i l = true →
      chainWFfrom i (l.take k) = true := by
  induction k with
  | zero => intro i l _; simp [chainWFfrom]
  | succ k ih =>
    intro i l hwf
    cases l with
    | nil => simp [chainWFfrom]
    | cons b rest =>
      simp only [chainWFfrom, Bool.and_eq_true] at hwf
      simp only [List.take_succ_cons, chainWFfrom, Bool.and_eq_true]
      exact ⟨hwf.1, ih (i + 1) rest hwf.2⟩

theorem chainWFfrom_drop (e : Nat) :
    ∀ (i : Nat) (l : List Block), chainWFfrom i l = true →
      chainWFfrom (i + e) (l.drop e) = true := by
  induction e with
  | zero => intro i l hwf; simpa using hwf
  | succ e ih =>
    intro i l hwf
    cases l with
    | nil => simp [chainWFfrom]
    | cons b rest =>
      simp only [chainWFfrom, Bool.and_eq_true] at hwf
      have h2 := ih (i + 1) rest hwf.2
      simp only [List.drop_succ_cons]
      have harith : i + 1 + e = i + (e + 1) := by omega
      rw [harith] at h2
      exact h2

theorem commitLoop_ascending :
    ∀ (bs : List Block) (s : StoaState) (e : Nat), chainWFfrom e bs = true →
      commitLoop s e bs =
        ({ blocks := s.blocks ++ bs, trace := s.trace ++ eventsFor bs },
          e + bs.length, true) := by
  intro bs
  induction bs with
  | nil => intro s e _; simp [commitLoop, eventsFor]
  | cons b rest ih =>
    intro s e hwf
    simp only [chainWFfrom, Bool.and_eq_true, decide_eq_true_eq] at hwf
    simp only [commitLoop, hwf.1, if_pos]
    rw [commitOne_eq, ih _ (e + 1) hwf.2]
    simp [eventsFor, List.length_cons, List.append_assoc]
    omega

theorem recoveryMaxBlocks_le (isNull : Bool) (height expected : Nat) :
    recoveryMaxBlocks isNull height expected ≤ 64 := by
  simp only [recoveryMaxBlocks]
  split <;> omega

theorem recoveryMaxBlocks_small (height expected : Nat) (hle : expected ≤ height)
    (hsmall : height - expected ≤ 64) :
    recoveryMaxBlocks false height expected = ((height - expected : Nat) : Int) := by
  simp only [recoveryMaxBlocks, if_neg, Bool.false_eq_true, ite_false, add_zero]
  rw [if_neg] <;> omega

theorem recoveryMaxBlocks_big (height expected : Nat)
    (hbig : 64 < height - expected) :
    recoveryMaxBlocks false height expected = 64 := by
  simp only [recoveryMaxBlocks, if_neg, Bool.false_eq_true, ite_false, add_zero]
  rw [if_pos]; omega

theorem chainWF_slice (chain : List Block) (e k : Nat)
    (hwf : chainWF chain = true) :
    chainWFfrom e ((chain.drop e).take k) = true := by
  have hdrop := chainWFfrom_drop e 0 chain hwf
  rw [Nat.zero_add] at hdrop
  exact chainWFfrom_take k e (chain.drop e) hdrop

theorem length_slice (chain : List Block) (e k : Nat)
    (hle : e + k ≤ chain.length) :
    ((chain.drop e).take k).length = k := by
  rw [List.length_take, List.length_drop]
  omega

theorem recoverBlock_small (chain : List Block) (b : Block) (s : StoaState)
    (hwf : chainWF chain = true) (hlen : b.height ≤ chain.length)
    (hlt : expectedHeight s < b.height)
    (hsmall : b.height - expectedHeight s ≤ 64) :
    recoverBlock chain (some b) b.height s =
      ({ blocks := s.blocks ++
            (chain.drop (expectedHeight s)).take (b.height - expectedHeight s) ++ [b],
         trace := s.trace ++
            eventsFor ((chain.drop (expectedHeight s)).take (b.height - expectedHeight s)) ++
            [Event.commit b.height] }, true) := by
  have hmb : recoveryMaxBlocks (some b).isNone b.height (expectedHeight s) =
      ((b.height - expectedHeight s : Nat) : Int) := by
    simpa using recoveryMaxBlocks_small b.height (expectedHeight s) (by omega) hsmall
  have hpos : ((b.height - expectedHeight s : Nat) : Int) > 0 := by omega
  have htn : ((b.height - expectedHeight s : Nat) : Int).toNat =
      b.height - expectedHeight s := Int.toNat_natCast _
  have hslice := chainWF_slice chain (expectedHeight s)
    (b.height - expectedHeight s) hwf
  have hlcl := commitLoop_ascending
    ((chain.drop (expectedHeight s)).take (b.height - expectedHeight s)) s
    (expectedHeight s) hslice
  have hlen2 := length_slice chain (expectedHeight s)
    (b.height - expectedHeight s) (by omega)
  simp only [recoverBlock, hmb, hpos, if_pos, getBlocksFrom, htn, hlcl, hlen2]
  rw [if_pos (by omega)]
  simp [putBlocks, List.append_assoc]

theorem recoverBlock_big (chain : List Block) (b : Block) (s : StoaState)
    (hwf : chainWF chain = true) (hlen : b.height ≤ chain.length)
    (hbig : 64 < b.height - expectedHeight s) :
    recoverBlock chain (some b) b.height s =
      ({ blocks := s.blocks ++ (chain.drop (expectedHeight s)).take 64,
         trace := s.trace ++
            eventsFor ((chain.drop (expectedHeight s)).take 64) }, false) := by
  have hmb : recoveryMaxBlocks (some b).isNone b.height (expectedHeight s) = 64 := by
    simpa using recoveryMaxBlocks_big b.height (expectedHeight s) hbig
  have hpos : (64 : Int) > 0 := by omega
  have ht64 : (64 : Int).toNat = 64 := rfl
  have hslice := chainWF_slice chain (expectedHeight s) 64 hwf
  have hlcl := commitLoop_ascending
    ((chain.drop (expectedHeight s)).take 64) s (expectedHeight s) hslice
  have hlen2 := length_slice chain (expectedHeight s) 64 (by omega)
  simp only [recoverBlock, hmb, hpos, if_pos, getBlocksFrom, ht64, hlcl, hlen2]
  rw [if_neg (by omega)]

theorem slice_split (chain : List Block) (e g : Nat) (hg : 64 < g) :
    (chain.drop e).take g =
      (chain.drop e).take 64 ++ (chain.drop (e + 64)).take (g - 64) := by
  conv_lhs => rw [show g = 64 + (g - 64) by omega, List.take_add]
  rw [List.drop_drop]

theorem taskBlockLoop_complete (chain : List Block) (b : Block) :
    ∀ (fuel : Nat) (s : StoaState), chainWF chain = true →
      b.height ≤ chain.length → expectedHeight s < b.height →
      b.height - expectedHeight s ≤ 64 * fuel →
      taskBlockLoop chain b fuel s =
        some { blocks := s.blocks ++
                 (chain.drop (expectedHeight s)).take (b.height - expectedHeight s) ++ [b],
               trace := s.trace ++
                 eventsFor ((chain.drop (expectedHeight s)).take
                   (b.height - expectedHeight s)) ++
                 [Event.commit b.height] } := by
  intro fuel
  induction fuel with
  | zero => intro s _ _ hlt hfuel; exact absurd hfuel (by omega)
  | succ fuel ih =>
    intro s hwf hlen hlt hfuel
    by_cases hsmall : b.height - expectedHeight s ≤ 64
    · rw [taskBlockLoop, recoverBlock_small chain b s hwf hlen hlt hsmall]
    · have hbig : 64 < b.height - expectedHeight s := by omega
      rw [taskBlockLoop, recoverBlock_big chain b s hwf hlen hbig]
      dsimp only
      have hexp1 : expectedHeight { blocks := s.blocks ++ (chain.drop (expectedHeight s)).take 64, trace := s.trace ++ eventsFor ((chain.drop (expectedHeight s)).take 64) } = expectedHeight s + 64 := by
        have h1 := length_slice chain (expectedHeight s) 64 (by omega)
        simp only [expectedHeight, List.length_append] at h1 ⊢
        omega
      rw [ih _ hwf hlen (by rw [hexp1]; omega) (by rw [hexp1]; omega)]
      rw [hexp1]
      have hsplit := slice_split chain (expectedHeight s)
        (b.height - expectedHeight s) hbig
      have harith : b.height - (expectedHeight s + 64) =
          b.height - expectedHeight s - 64 := by omega
      simp only [harith, hsplit, eventsFor_append, List.append_assoc]

theorem count_emit_blockEvents (b : Block) (j : Nat) :
    (blockEvents b).count (Event.emit j) = if b.height = j then 1 else 0 := by
  by_cases h : b.height = j <;> simp [blockEvents, h, List.count_cons]

theorem count_commit_blockEvents (b : Block) (j : Nat) :
    (blockEvents b).count (Event.commit j) = if b.height = j then 1 else 0 := by
  by_cases h : b.height = j <;> simp [blockEvents, h, List.count_cons]

theorem count_emit_eventsFor (j : Nat) :
    ∀ (bs : List Block) (e : Nat), chainWFfrom e bs = true →
      (eventsFor bs).count (Event.emit j) =
        (if e ≤ j ∧ j < e + bs.length then 1 else 0) := by
  intro bs
  induction bs with
  | nil =>
    intro e _
    simp only [eventsFor, List.count_nil, List.length_nil, Nat.add_zero]
    rw [if_neg (by omega)]
  | cons b rest ih =>
    intro e hwf
    simp only [chainWFfrom, Bool.and_eq_true, decide_eq_true_eq] at hwf
    have hr := ih (e + 1) hwf.2
    simp only [eventsFor, List.count_append, count_emit_blockEvents, hwf.1, hr,
      List.length_cons]
    split_ifs <;> omega

theorem count_commit_eventsFor (j : Nat) :
    ∀ (bs : List Block) (e : Nat), chainWFfrom e bs = true →
      (eventsFor bs).count (Event.commit j) =
        (if e ≤ j ∧ j < e + bs.length then 1 else 0) := by
  intro bs
  induction bs with
  | nil =>
    intro e _
    simp only [eventsFor, List.count_nil, List.length_nil, Nat.add_zero]
    rw [if_neg (by omega)]
  | cons b rest ih =>
    intro e hwf
    simp only [chainWFfrom, Bool.and_eq_true, decide_eq_true_eq] at hwf
    have hr := ih (e + 1) hwf.2
    simp only [eventsFor, List.count_append, count_commit_blockEvents, hwf.1, hr,
      List.length_cons]
    split_ifs <;> omega

theorem count_commit_singleton (x y : Nat) :
    ([Event.commit x] : List Event).count (Event.commit y) = if x = y then 1 else 0 := by
  by_cases h : x = y <;> simp [h, List.count_cons]

theorem count_emit_commit_singleton (x y : Nat) :
    ([Event.commit x] : List Event).count (Event.emit y) = 0 := by
  simp [List.count_cons]

theorem task_gap (chain : List Block) (b : Block) (s : StoaState) (fuel : Nat)
    (hwf : chainWF chain = true) (hlen : b.height ≤ chain.length)
    (hlt : expectedHeight s < b.height)
    (hfuel : b.height - expectedHeight s ≤ 64 * fuel) :
    task chain fuel b s = some { blocks := s.blocks ++ (chain.drop (expectedHeight s)).take (b.height - expectedHeight s) ++ [b], trace := s.trace ++ eventsFor ((chain.drop (expectedHeight s)).take (b.height - expectedHeight s)) ++ [Event.commit b.height] } := by
  simp only [task]
  rw [if_neg (by omega), if_pos (by omega)]
  exact taskBlockLoop_complete chain b fuel s hwf hlen hlt hfuel

/-! ### Claim theorems -/

/-- C1: block intake follows the three-case algorithm. For a submitted
block `b` at height h and store expected-next-height e: if h = e the
block is committed and e advances; if h > e the service enters recovery,
each pass fetching at most 64 blocks from the consensus client starting
at the current e, committing each fetched block whose height equals the
running e, re-reading e from the store between passes, and finally
committing `b` once e has reached h (the resulting store holds exactly
the gap blocks followed by `b` and its expected height is h + 1); if
h < e the submission is ignored. -/
theorem C1_block_intake_three_cases (chain : List Block) (b : Block)
    (s : StoaState) (fuel : Nat) (hwf : chainWF chain = true)
    (hlen : b.height ≤ chain.length)
    (hfuel : b.height - expectedHeight s ≤ 64 * fuel) :
    (b.height = expectedHeight s →
      task chain fuel b s = some (emitStatsEv (emitBlockEv (putBlocks s b) b) b) ∧
      expectedHeight (emitStatsEv (emitBlockEv (putBlocks s b) b) b) = expectedHeight s + 1) ∧
    (expectedHeight s < b.height →
      task chain fuel b s = some { blocks := s.blocks ++ (chain.drop (expectedHeight s)).take (b.height - expectedHeight s) ++ [b], trace := s.trace ++ eventsFor ((chain.drop (expectedHeight s)).take (b.height - expectedHeight s)) ++ [Event.commit b.height] } ∧
      expectedHeight { blocks := s.blocks ++ (chain.drop (expectedHeight s)).take (b.height - expectedHeight s) ++ [b], trace := s.trace ++ eventsFor ((chain.drop (expectedHeight s)).take (b.height - expectedHeight s)) ++ [Event.commit b.height] } = b.height + 1) ∧
    (b.height < expectedHeight s → task chain fuel b s = some s) ∧
    (∀ (isNull : Bool) (h e : Nat), recoveryMaxBlocks isNull h e ≤ 64) := by
  refine ⟨?_, ?_, ?_, recoveryMaxBlocks_le⟩
  · intro heq
    constructor
    · simp only [task]
      rw [if_pos heq]
    · simp [expectedHeight, putBlocks, emitBlockEv, emitStatsEv]
  · intro hlt
    refine ⟨task_gap chain b s fuel hwf hlen hlt hfuel, ?_⟩
    have hlen2 := length_slice chain (expectedHeight s) (b.height - expectedHeight s) (by omega)
    have he : expectedHeight s = s.blocks.length := rfl
    show (s.blocks ++ (chain.drop (expectedHeight s)).take (b.height - expectedHeight s) ++ [b]).length = b.height + 1
    simp only [List.length_append, List.length_singleton, hlen2]
    omega
  · intro hlt
    simp only [task]
    rw [if_neg (by omega), if_neg (by omega)]

/-- Witness for C1: a store at expected height 1 receives the block at
height 3; recovery pulls blocks 1 and 2 from the consensus chain,
commits them with events, then commits the submitted block, ending at
expected height 4. -/
theorem C1_block_intake_three_cases_witness :
    task [(⟨0, 0⟩ : Block), ⟨1, 1⟩, ⟨2, 2⟩] 1 ⟨3, 9⟩ { blocks := [⟨0, 0⟩], trace := [] } =
      some { blocks := [⟨0, 0⟩, ⟨1, 1⟩, ⟨2, 2⟩, ⟨3, 9⟩], trace := [Event.commit 1, Event.emit 1, Event.stats 1, Event.commit 2, Event.emit 2, Event.stats 2, Event.commit 3] } := by
  have h := (C1_block_intake_three_cases [(⟨0, 0⟩ : Block), ⟨1, 1⟩, ⟨2, 2⟩] ⟨3, 9⟩
    { blocks := [⟨0, 0⟩], trace := [] } 1 (by decide) (by decide) (by decide)).2.1
    (by decide)
  exact h.1.trans (by decide)

/-- C5: duplicate submission is ignored. A block whose height is below
the expected next height leaves the store unchanged, and a block
committed on the normal path, when submitted a second time, leaves the
state exactly as after the first submission. -/
theorem C5_duplicate_submission_ignored (chain chain2 : List Block)
    (fuel fuel2 : Nat) (b : Block) (s s1 : StoaState) :
    (b.height < expectedHeight s → task chain fuel b s = some s) ∧
    (expectedHeight s = b.height → task chain fuel b s = some s1 →
      task chain2 fuel2 b s1 = some s1) := by
  constructor
  · intro hlt
    simp only [task]
    rw [if_neg (by omega), if_neg (by omega)]
  · intro heq htask
    have h1 : task chain fuel b s =
        some (emitStatsEv (emitBlockEv (putBlocks s b) b) b) := by
      simp only [task]
      rw [if_pos heq.symm]
    rw [h1] at htask
    have hs1 := Option.some.inj htask
    have hexp : expectedHeight s1 = expectedHeight s + 1 := by
      rw [← hs1]
      simp [expectedHeight, putBlocks, emitBlockEv, emitStatsEv]
    simp only [task]
    rw [if_neg (by omega), if_neg (by omega)]

/-- Witness for C5: the block at height 0 is committed into an empty
store, and a second submission of the same block leaves the state
untouched. -/
theorem C5_duplicate_submission_ignored_witness :
    task [] 0 ⟨0, 3⟩ { blocks := [⟨0, 3⟩], trace := [Event.commit 0, Event.emit 0, Event.stats 0] } =
      some { blocks := [⟨0, 3⟩], trace := [Event.commit 0, Event.emit 0, Event.stats 0] } := by
  exact (C5_duplicate_submission_ignored [] [] 0 0 ⟨0, 3⟩
      { blocks := [], trace := [] }
      { blocks := [⟨0, 3⟩], trace := [Event.commit 0, Event.emit 0, Event.stats 0] }).2
    (by decide) (by decide)

/-- Counterexample to C6: with the store at expected height 1, submitting
the block at height 2 runs recovery; block 1 (fetched from the consensus
client) is committed and emitted, but the submitted block 2 is committed
at the end of the recovery pass without any `new_block` or
`new_transaction` emission, so its commit appears in the trace with no
matching emit. -/
theorem C6_counterexample :
    task [(⟨0, 0⟩ : Block), ⟨1, 5⟩] 1 ⟨2, 9⟩ { blocks := [⟨0, 0⟩], trace := [] } =
      some { blocks := [⟨0, 0⟩, ⟨1, 5⟩, ⟨2, 9⟩], trace := [Event.commit 1, Event.emit 1, Event.stats 1, Event.commit 2] } ∧
    ([Event.commit 1, Event.emit 1, Event.stats 1, Event.commit 2].count (Event.commit 2) = 1 ∧
      [Event.commit 1, Event.emit 1, Event.stats 1, Event.commit 2].count (Event.emit 2) = 0) := by
  decide

/-- C6 (amended): on the normal path the committed block gets its
`new_block` and `new_transaction` emission exactly once, strictly after
its commit and in commit order, and likewise every gap block committed
during recovery; but the submitted block committed at the end of a
recovery pass is not emitted at all (its commit count rises by one while
its emit count stays unchanged). -/
theorem C6_amended_emission_discipline (chain : List Block) (b : Block)
    (s : StoaState) (fuel : Nat) (hwf : chainWF chain = true)
    (hlen : b.height ≤ chain.length)
    (hfuel : b.height - expectedHeight s ≤ 64 * fuel) :
    (b.height = expectedHeight s →
      task chain fuel b s = some { blocks := s.blocks ++ [b], trace := s.trace ++ [Event.commit b.height, Event.emit b.height, Event.stats b.height] }) ∧
    (expectedHeight s < b.height → ∀ s1, task chain fuel b s = some s1 →
      s1.trace = s.trace ++ eventsFor ((chain.drop (expectedHeight s)).take (b.height - expectedHeight s)) ++ [Event.commit b.height] ∧
      s1.trace.count (Event.emit b.height) = s.trace.count (Event.emit b.height) ∧
      s1.trace.count (Event.commit b.height) = s.trace.count (Event.commit b.height) + 1 ∧
      (∀ j, expectedHeight s ≤ j → j < b.height →
        s1.trace.count (Event.emit j) = s.trace.count (Event.emit j) + 1 ∧
        s1.trace.count (Event.commit j) = s.trace.count (Event.commit j) + 1)) := by
  constructor
  · intro heq
    simp only [task]
    rw [if_pos heq, commitOne_eq]
    simp [blockEvents]
  · intro hlt s1 htask
    rw [task_gap chain b s fuel hwf hlen hlt hfuel] at htask
    have hs1 := Option.some.inj htask
    subst hs1
    have hslice := chainWF_slice chain (expectedHeight s) (b.height - expectedHeight s) hwf
    have hlen2 := length_slice chain (expectedHeight s) (b.height - expectedHeight s) (by omega)
    refine ⟨rfl, ?_, ?_, ?_⟩
    · simp only [List.count_append,
        count_emit_eventsFor b.height _ (expectedHeight s) hslice,
        count_emit_commit_singleton, hlen2]
      split_ifs <;> omega
    · simp only [List.count_append,
        count_commit_eventsFor b.height _ (expectedHeight s) hslice,
        count_commit_singleton, hlen2]
      split_ifs <;> omega
    · intro j hj1 hj2
      constructor
      · simp only [List.count_append,
          count_emit_eventsFor j _ (expectedHeight s) hslice,
          count_emit_commit_singleton, hlen2]
        split_ifs <;> omega
      · simp only [List.count_append,
          count_commit_eventsFor j _ (expectedHeight s) hslice,
          count_commit_singleton, hlen2]
        split_ifs <;> omega

/-- Witness for C6 (amended): the recovery run of the counterexample
input satisfies the amended emission discipline, with block 1 emitted
exactly once and block 2 committed without emission. -/
theorem C6_amended_emission_discipline_witness :
    [Event.commit 1, Event.emit 1, Event.stats 1, Event.commit 2].count (Event.emit 2) = 0 ∧
    [Event.commit 1, Event.emit 1, Event.stats 1, Event.commit 2].count (Event.commit 2) = 1 ∧
    [Event.commit 1, Event.emit 1, Event.stats 1, Event.commit 2].count (Event.emit 1) = 1 := by
  have h := (C6_amended_emission_discipline [(⟨0, 0⟩ : Block), ⟨1, 5⟩] ⟨2, 9⟩
    { blocks := [⟨0, 0⟩], trace := [] } 1 (by decide) (by decide) (by decide)).2
    (by decide) { blocks := [⟨0, 0⟩, ⟨1, 5⟩, ⟨2, 9⟩], trace := [Event.commit 1, Event.emit 1, Event.stats 1, Event.commit 2] } (by decide)
  refine ⟨?_, ?_, ?_⟩
  · exact h.2.1.trans (by decide)
  · exact h.2.2.1.trans (by decide)
  · exact ((h.2.2.2 1 (by decide) (by decide)).1).trans (by decide)

/-- C9: POST /block_externalized replies 200 for any request body that
contains a top-level block field, even when the contained block is
malformed (header or height missing); the malformed block is still
enqueued, and the parse failure surfaces only when the queued task runs,
rejecting the pending promise of the serial queue. -/
theorem C9_post_block_accepts_malformed (jb : JsonBlock) (chain : List Block)
    (fuel : Nat) (s : StoaState) :
    postBlock { blockField := some jb } = { status := 200, enqueued := true } ∧
    (headerHeight jb = none →
      taskJson chain fuel s jb = Except.error "Not found block height in JSON Block") := by
  constructor
  · rfl
  · intro hmal
    cases hh : jb.header with
    | none => simp [taskJson, getJsonBlockHeight, hh]
    | some hd =>
      have hd2 : hd.height = none := by simpa [headerHeight, hh] using hmal
      simp [taskJson, getJsonBlockHeight, hh, hd2]

/-- Witness for C9: a block JSON with no header is accepted with 200 and
enqueued, and the queued task rejects with the parse error. -/
theorem C9_post_block_accepts_malformed_witness :
    postBlock { blockField := some { header := none, body := 0 } } =
      { status := 200, enqueued := true } ∧
    taskJson [] 0 { blocks := [], trace := [] } { header := none, body := 0 } =
      Except.error "Not found block height in JSON Block" :=
  ⟨(C9_post_block_accepts_malformed { header := none, body := 0 } [] 0
      { blocks := [], trace := [] }).1,
   (C9_post_block_accepts_malformed { header := none, body := 0 } [] 0
      { blocks := [], trace := [] }).2 (by decide)⟩

theorem paginate_cases (page pageSize : Param) :
    paginate page pageSize = { sent := [400], result := none } ∨
    ∃ pg, paginate page pageSize = { sent := [], result := some pg } := by
  unfold paginate paginateSize
  split_ifs <;> first
    | exact Or.inl rfl
    | exact Or.inr ⟨_, rfl⟩

/-- C10: the promise returned by paginate settles only for valid
parameters. When validation fails, paginate itself has sent exactly one
400 response and its promise never resolves nor rejects, so the awaiting
endpoint handler never queries the store and never sends a second
response; when the promise resolves, paginate has sent nothing. -/
theorem C10_paginate_never_settles_on_invalid (page pageSize : Param) :
    ((paginate page pageSize).result = none ↔ (paginate page pageSize).sent = [400]) ∧
    ((paginate page pageSize).result = none →
      pagedHandler page pageSize = ([400], false)) ∧
    (∀ pg, (paginate page pageSize).result = some pg →
      (paginate page pageSize).sent = []) := by
  rcases paginate_cases page pageSize with h | ⟨pg, h⟩
  · refine ⟨by rw [h]; exact ⟨fun _ => rfl, fun _ => rfl⟩, ?_, ?_⟩
    · intro _
      simp [pagedHandler, h]
    · intro pg hpg
      rw [h] at hpg
      exact absurd hpg (by simp)
  · refine ⟨by rw [h]; simp, ?_, ?_⟩
    · intro hnone
      rw [h] at hnone
      exact absurd hnone (by simp)
    · intro pg2 _
      rw [h]

/-- Witness for C10: a negative page parameter makes paginate send 400
and leave its promise pending, so the paged handler sends nothing else
and never queries the store. -/
theorem C10_paginate_never_settles_on_invalid_witness :
    pagedHandler (Param.intStr (-1)) Param.absent = ([400], false) :=
  (C10_paginate_never_settles_on_invalid (Param.intStr (-1)) Param.absent).2.1
    (by decide)

/-- Counterexample to C8: the value 0 for page or pageSize is a
non-positive integer, yet neither is rejected with 400: page=0 is
treated as absent and the promise resolves with page 1, and pageSize=0
passes validation and the promise resolves with pageSize 0. -/
theorem C8_counterexample :
    paginate (Param.intStr 0) Param.absent =
      { sent := [], result := some { page := 1, pageSize := 10 } } ∧
    paginate Param.absent (Param.intStr 0) =
      { sent := [], result := some { page := 1, pageSize := 0 } } := by
  decide

/-- C8 (amended): an absent page defaults to 1 and an absent pageSize to
10; a pageSize greater than 100 is rejected with 400; a negative or
non-numeric page or pageSize is rejected with 400; but the non-positive
value 0 is not rejected: page=0 falls back to the default 1 and
pageSize=0 is accepted as 0. -/
theorem C8_amended_pagination_validation :
    (paginate Param.absent Param.absent =
      { sent := [], result := some { page := 1, pageSize := 10 } }) ∧
    (∀ n : Int, 100 < n → paginate Param.absent (Param.intStr n) =
      { sent := [400], result := none }) ∧
    (∀ n : Int, n < 0 →
      paginate (Param.intStr n) Param.absent = { sent := [400], result := none } ∧
      paginate Param.absent (Param.intStr n) = { sent := [400], result := none }) ∧
    (paginate Param.nonNumeric Param.absent = { sent := [400], result := none }) ∧
    (paginate Param.absent Param.nonNumeric = { sent := [400], result := none }) ∧
    (paginate (Param.intStr 0) Param.absent =
      { sent := [], result := some { page := 1, pageSize := 10 } }) ∧
    (paginate Param.absent (Param.intStr 0) =
      { sent := [], result := some { page := 1, pageSize := 0 } }) := by
  refine ⟨by decide, ?_, ?_, by decide, by decide, by decide, by decide⟩
  · intro n hn
    have h1 : (0 : Int) ≤ n := by omega
    have h2 : limit_page_size < n.toNat := by simp [limit_page_size]; omega
    simp [paginate, paginateSize, isPositiveInteger, paramValue, h1, h2]
  · intro n hn
    have h0 : ¬ (n = 0) := by omega
    have h1 : ¬ ((0 : Int) ≤ n) := by omega
    constructor
    · simp [paginate, paginateSize, numberIsZero, isPositiveInteger, h0, h1]
    · simp [paginate, paginateSize, numberIsZero, isPositiveInteger, h0, h1]

/-- Witness for C8 (amended): page=-5 and pageSize=101 are both rejected
with 400 and a pending promise. -/
theorem C8_amended_pagination_validation_witness :
    paginate (Param.intStr (-5)) Param.absent = { sent := [400], result := none } ∧
    paginate Param.absent (Param.intStr 101) = { sent := [400], result := none } :=
  ⟨(C8_amended_pagination_validation.2.2.1 (-5) (by decide)).1,
   C8_amended_pagination_validation.2.1 101 (by decide)⟩

/-- Counterexample to C7: GET /block_height on an empty store answers
400, not 204, and GET /validators with a height for which no validator
exists answers 400, not 204. -/
theorem C7_counterexample :
    (getBlockHeightResponse (StoreResult.ok none)).status = 400 ∧
    (getBlockHeightResponse (StoreResult.ok none)).status ≠ 204 ∧
    (getValidatorsResponse (some 5) (StoreResult.ok [])).status = 400 ∧
    (getValidatorsResponse (some 5) (StoreResult.ok [])).status ≠ 204 := by
  decide

/-- C7 (amended): every read endpoint whose handler attaches a failure
catch answers a transient store failure with 500 and the text Failed to
data lookup, and that is every read endpoint except GET /latest-blocks
and GET /latest-transactions, whose handlers attach no catch and send
no response on a rejected store query (their 500 arises only when the
query resolves with undefined data). A lookup that finds no matching
data is answered 204 with an explanatory body on every read endpoint
except: GET /block_height answers 400, GET /validators answers 400 with
a height parameter and 503 without, GET /validator 400,
GET /transaction/status 500, GET /utxo, POST /utxos and
GET /wallet/transactions/history 200 with an empty array, GET /boa-stats
500, and GET /spv 200 with a false verification result
(GET /transaction/fees performs no lookup by key). -/
theorem C7_amended_read_endpoint_statuses :
    (∀ ep : ReadEndpoint, hasFailureCatch ep = true → storeFailureStatus ep = some 500) ∧
    (∀ ep : ReadEndpoint, hasFailureCatch ep = false ↔
      (ep = ReadEndpoint.latestBlocks ∨ ep = ReadEndpoint.latestTransactions)) ∧
    (∀ ep : ReadEndpoint, storeFailureStatus ep = none ↔
      (ep = ReadEndpoint.latestBlocks ∨ ep = ReadEndpoint.latestTransactions)) ∧
    getLatestBlocksResponse StoreResult.failure = none ∧
    getLatestTransactionsResponse StoreResult.failure = none ∧
    getLatestBlocksResponse (StoreResult.ok none) = some { status := 500, body := "Failed to data lookup" } ∧
    getLatestBlocksResponse (StoreResult.ok (some [])) = some { status := 204, body := "The data does not exist." } ∧
    getLatestTransactionsResponse (StoreResult.ok none) = some { status := 500, body := "Failed to data lookup" } ∧
    getLatestTransactionsResponse (StoreResult.ok (some [])) = some { status := 204, body := "The data does not exist." } ∧
    (∀ ep : ReadEndpoint, isEmpty204Exception ep = false →
      (emptyLookupStatus ep = some 204 ∨ emptyLookupStatus ep = none)) ∧
    (∀ ep : ReadEndpoint, emptyLookupStatus ep ≠ some 204 → emptyLookupStatus ep ≠ none →
      isEmpty204Exception ep = true) ∧
    emptyLookupStatus ReadEndpoint.blockHeight = some (getBlockHeightResponse (StoreResult.ok none)).status ∧
    (∀ h : Nat, emptyLookupStatus ReadEndpoint.validatorsWithHeight = some (getValidatorsResponse (some h) (StoreResult.ok [])).status) ∧
    emptyLookupStatus ReadEndpoint.validatorsNoHeight = some (getValidatorsResponse none (StoreResult.ok [])).status ∧
    emptyLookupStatus ReadEndpoint.blockHeightAt = some (getBlockHeightAtResponse (StoreResult.ok none)).status ∧
    emptyLookupStatus ReadEndpoint.walletBlocksHeader = some (getWalletBlocksHeaderResponse (StoreResult.ok [])).status ∧
    getBlockHeightResponse (StoreResult.ok none) = { status := 400, body := "The block height not found." } ∧
    (∀ h, getValidatorsResponse (some h) (StoreResult.ok []) = { status := 400, body := "No validator exists for block height." }) ∧
    getValidatorsResponse none (StoreResult.ok []) = { status := 503, body := "Stoa is currently unavailable." } ∧
    getBlockHeightAtResponse (StoreResult.ok none) = { status := 204, body := "No Content" } ∧
    getWalletBlocksHeaderResponse (StoreResult.ok []) = { status := 204, body := "No blocks" } ∧
    getBlockHeightResponse StoreResult.failure = { status := 500, body := "Failed to data lookup" } ∧
    (∀ hq, getValidatorsResponse hq StoreResult.failure = { status := 500, body := "Failed to data lookup" }) ∧
    getBlockHeightAtResponse StoreResult.failure = { status := 500, body := "Failed to data lookup" } ∧
    getWalletBlocksHeaderResponse StoreResult.failure = { status := 500, body := "Failed to data lookup" } :=
  ⟨by decide, by decide, by decide, rfl, rfl, rfl, rfl, rfl, rfl,
   by decide, by decide, rfl, fun _ => rfl, rfl, rfl, rfl, rfl, fun _ => rfl,
   rfl, rfl, rfl, rfl, fun _ => rfl, rfl, rfl⟩

/-- Witness for C7 (amended): GET /transaction has a catch and answers a
store failure with 500, GET /latest-blocks has none and answers
nothing, an empty GET /transaction lookup is a 204, and GET /utxo,
whose empty lookup is a 200, is one of the recorded deviations. -/
theorem C7_amended_read_endpoint_statuses_witness :
    storeFailureStatus ReadEndpoint.transaction = some 500 ∧
    storeFailureStatus ReadEndpoint.latestBlocks = none ∧
    (emptyLookupStatus ReadEndpoint.transaction = some 204 ∨
      emptyLookupStatus ReadEndpoint.transaction = none) ∧
    isEmpty204Exception ReadEndpoint.utxo = true := by
  obtain ⟨h1, h2, h3, h4, h5, h6, h7, h8, h9, h10, h11, hrest⟩ :=
    C7_amended_read_endpoint_statuses
  exact ⟨h1 ReadEndpoint.transaction (by decide),
    (h3 ReadEndpoint.latestBlocks).mpr (Or.inl rfl),
    h10 ReadEndpoint.transaction (by decide),
    h11 ReadEndpoint.utxo (by decide) (by decide)⟩

theorem update_preimage_flag (p : PreImageSubmission) :
    ∀ reg : List PreImageRow, (update_preimage reg p).2 = true ↔
      ∃ r, lookupPre reg p.utxo_key = some r ∧ r.tip_height < p.tip_height ∧
        p.tip_height < r.anchor + r.cycle_length := by
  intro reg
  induction reg with
  | nil => simp [update_preimage, lookupPre]
  | cons r rest ih =>
    by_cases hk : r.utxo_key = p.utxo_key
    · by_cases hc : r.tip_height < p.tip_height ∧ p.tip_height < r.anchor + r.cycle_length
      · simp [update_preimage, lookupPre, hk, hc]
      · simp [update_preimage, lookupPre, hk, hc]
    · simp [update_preimage, lookupPre, hk, ih]

theorem update_preimage_nochange (p : PreImageSubmission) :
    ∀ reg : List PreImageRow, (update_preimage reg p).2 = false →
      (update_preimage reg p).1 = reg := by
  intro reg
  induction reg with
  | nil => intro _; rfl
  | cons r rest ih =>
    intro hfl
    by_cases hk : r.utxo_key = p.utxo_key
    · by_cases hc : r.tip_height < p.tip_height ∧ p.tip_height < r.anchor + r.cycle_length
      · simp [update_preimage, hk, hc] at hfl
      · simp [update_preimage, hk, hc]
    · simp only [update_preimage, hk, if_neg, ite_false] at hfl ⊢
      rw [ih hfl]

theorem update_preimage_stale (p : PreImageSubmission) :
    ∀ (reg : List PreImageRow) (r : PreImageRow),
      lookupPre reg p.utxo_key = some r → p.tip_height ≤ r.tip_height →
      update_preimage reg p = (reg, false) := by
  intro reg
  induction reg with
  | nil => intro r hl _; simp [lookupPre] at hl
  | cons r0 rest ih =>
    intro r hl hle
    by_cases hk : r0.utxo_key = p.utxo_key
    · have hr : r0 = r := by simpa [lookupPre, hk] using hl
      subst hr
      have hc : ¬ (r0.tip_height < p.tip_height ∧ p.tip_height < r0.anchor + r0.cycle_length) := by
        omega
      simp [update_preimage, hk, hc]
    · have hl2 : lookupPre rest p.utxo_key = some r := by simpa [lookupPre, hk] using hl
      have hrec := ih r hl2 hle
      simp [update_preimage, hk, hrec]

theorem update_preimage_changed (p : PreImageSubmission) :
    ∀ reg : List PreImageRow, (update_preimage reg p).2 = true →
      ∀ r, lookupPre reg p.utxo_key = some r →
        lookupPre (update_preimage reg p).1 p.utxo_key =
          some { r with tip_height := p.tip_height, tip_hash := p.tip_hash } := by
  intro reg
  induction reg with
  | nil => intro hfl; simp [update_preimage] at hfl
  | cons r0 rest ih =>
    intro hfl r hl
    by_cases hk : r0.utxo_key = p.utxo_key
    · have hr : r0 = r := by simpa [lookupPre, hk] using hl
      subst hr
      by_cases hc : r0.tip_height < p.tip_height ∧ p.tip_height < r0.anchor + r0.cycle_length
      · simp [update_preimage, lookupPre, hk, hc]
      · simp [update_preimage, hk, hc] at hfl
    · have hl2 : lookupPre rest p.utxo_key = some r := by simpa [lookupPre, hk] using hl
      simp only [update_preimage, hk, if_neg, ite_false] at hfl ⊢
      simp only [lookupPre, hk, if_neg, ite_false]
      exact ih hfl r hl2

/-- C4: pre-image updates are monotone. `update_preimage` changes a row
exactly when the submitted tip_height is strictly greater than the
stored tip_height for that utxo_key and less than anchor + cycle_length,
and it returns whether a row changed; a submission with a tip_height
lower than or equal to the stored one leaves the registry unchanged, and
when a row does change it carries the submitted tip. -/
theorem C4_update_preimage_monotone (reg : List PreImageRow)
    (p : PreImageSubmission) :
    ((update_preimage reg p).2 = true ↔
      ∃ r, lookupPre reg p.utxo_key = some r ∧ r.tip_height < p.tip_height ∧
        p.tip_height < r.anchor + r.cycle_length) ∧
    ((update_preimage reg p).2 = false → (update_preimage reg p).1 = reg) ∧
    (∀ r, lookupPre reg p.utxo_key = some r → p.tip_height ≤ r.tip_height →
      update_preimage reg p = (reg, false)) ∧
    ((update_preimage reg p).2 = true → ∀ r, lookupPre reg p.utxo_key = some r →
      lookupPre (update_preimage reg p).1 p.utxo_key =
        some { r with tip_height := p.tip_height, tip_hash := p.tip_hash }) :=
  ⟨update_preimage_flag p reg, update_preimage_nochange p reg,
   fun r hl hle => update_preimage_stale p reg r hl hle,
   fun hfl r hl => update_preimage_changed p reg hfl r hl⟩

/-- Witness for C4: with a stored tip of 7 in a cycle of 20 anchored at
0, the submission of tip 5 is a no-op and the submission of tip 9
changes the row. -/
theorem C4_update_preimage_monotone_witness :
    update_preimage [(⟨1, 0, 20, 7, 70⟩ : PreImageRow)] ⟨1, 5, 50⟩ =
      ([(⟨1, 0, 20, 7, 70⟩ : PreImageRow)], false) ∧
    lookupPre (update_preimage [(⟨1, 0, 20, 7, 70⟩ : PreImageRow)] ⟨1, 9, 90⟩).1 1 =
      some ⟨1, 0, 20, 9, 90⟩ :=
  ⟨(C4_update_preimage_monotone [⟨1, 0, 20, 7, 70⟩] ⟨1, 5, 50⟩).2.2.1
      ⟨1, 0, 20, 7, 70⟩ (by decide) (by decide),
   (C4_update_preimage_monotone [⟨1, 0, 20, 7, 70⟩] ⟨1, 9, 90⟩).2.2.2
      (by decide) ⟨1, 0, 20, 7, 70⟩ (by decide)⟩

theorem ballotAccepted_window (w : ProposalWindow) (h : Nat) (c : BallotChecks)
    (hacc : ballotAccepted w h c = true) :
    w.vote_start_height ≤ h ∧ h ≤ w.vote_end_height := by
  simp only [ballotAccepted, Bool.and_eq_true, decide_eq_true_eq] at hacc
  exact ⟨hacc.1.1.1.1, hacc.1.1.1.2⟩

/-- C2: a ballot-bearing transaction committed at height h is accepted
only when vote_start_height ≤ h ≤ vote_end_height; outside the window it
is stamped REJECT yet still persisted (the row is appended either way);
and when the remaining checks pass, acceptance holds exactly on the
window, so the boundary heights themselves are accepted. -/
theorem C2_ballot_window (w : ProposalWindow) (h : Nat) (c : BallotChecks) :
    (∀ rows, recordBallot rows w h c =
      rows ++ [{ height := h, rejected := !ballotAccepted w h c }]) ∧
    (ballotAccepted w h c = true →
      w.vote_start_height ≤ h ∧ h ≤ w.vote_end_height) ∧
    (h < w.vote_start_height → ballotAccepted w h c = false) ∧
    (w.vote_end_height < h → ballotAccepted w h c = false) ∧
    (c.sigs_ok = true → c.validator_active = true → c.sequence_ok = true →
      (ballotAccepted w h c = true ↔
        w.vote_start_height ≤ h ∧ h ≤ w.vote_end_height)) := by
  refine ⟨fun rows => rfl, ballotAccepted_window w h c, ?_, ?_, ?_⟩
  · intro hlt
    rw [← Bool.not_eq_true]
    intro hacc
    have hw := ballotAccepted_window w h c hacc
    omega
  · intro hgt
    rw [← Bool.not_eq_true]
    intro hacc
    have hw := ballotAccepted_window w h c hacc
    omega
  · intro hsig hact hseq
    refine ⟨ballotAccepted_window w h c, ?_⟩
    intro hw
    simp [ballotAccepted, hsig, hact, hseq, hw.1, hw.2]

/-- Witness for C2: for the proposal window [10, 15] of the test suite,
with the other checks passing, the ballot at the boundary height 10 is
accepted, while the ballots at heights 6 and 16 are rejected yet still
appended to the store. -/
theorem C2_ballot_window_witness :
    (ballotAccepted ⟨10, 15⟩ 10 ⟨true, true, true⟩ = true ↔ 10 ≤ 10 ∧ 10 ≤ 15) ∧
    ballotAccepted ⟨10, 15⟩ 6 ⟨true, true, true⟩ = false ∧
    ballotAccepted ⟨10, 15⟩ 16 ⟨true, true, true⟩ = false ∧
    recordBallot [] ⟨10, 15⟩ 6 ⟨true, true, true⟩ =
      [{ height := 6, rejected := !ballotAccepted ⟨10, 15⟩ 6 ⟨true, true, true⟩ }] :=
  ⟨(C2_ballot_window ⟨10, 15⟩ 10 ⟨true, true, true⟩).2.2.2.2 rfl rfl rfl,
   (C2_ballot_window ⟨10, 15⟩ 6 ⟨true, true, true⟩).2.2.1 (by decide),
   (C2_ballot_window ⟨10, 15⟩ 16 ⟨true, true, true⟩).2.2.2.1 (by decide),
   (C2_ballot_window ⟨10, 15⟩ 6 ⟨true, true, true⟩).1 []⟩

/-- C3: the tally result is PASSED exactly when a strict majority of the
decoded answers among YES and NO is YES (BLANK and REJECT excluded from
the denominator) and at least the ceiling of N/3 of the committee of
size N voted, and REJECTED otherwise; while the proposal status is
PENDING, VOTING or COUNTING_VOTES the externally visible result is
PENDING. -/
theorem C3_tally_rule (answers : List BallotAnswer) (committee : Nat)
    (st : ProposalStatus) (tallied : ProposalResult) :
    (tallyResult answers committee = ProposalResult.PASSED ↔
      answers.count BallotAnswer.YES + answers.count BallotAnswer.NO <
        2 * answers.count BallotAnswer.YES ∧
      committee ≤ 3 * (answers.count BallotAnswer.YES +
        answers.count BallotAnswer.NO + answers.count BallotAnswer.BLANK)) ∧
    (tallyResult answers committee = ProposalResult.PASSED ∨
      tallyResult answers committee = ProposalResult.REJECTED) ∧
    ((st = ProposalStatus.PENDING ∨ st = ProposalStatus.VOTING ∨
        st = ProposalStatus.COUNTING_VOTES) →
      externalResult st tallied = ProposalResult.PENDING) := by
  refine ⟨?_, ?_, ?_⟩
  · simp only [tallyResult]
    split_ifs with hc
    · exact ⟨fun _ => by omega, fun _ => rfl⟩
    · constructor
      · intro hcon
        exact absurd hcon (by decide)
      · intro ha
        exact absurd ⟨by omega, by omega⟩ hc
  · simp only [tallyResult]
    split_ifs <;> simp
  · intro hst
    rcases hst with hh | hh | hh <;> subst hh <;> rfl

/-- Witness for C3: the two test scenarios of the suite. With committee
size 6, the answers YES, NO, BLANK, YES pass and the answers YES, NO,
NO, BLANK are rejected; a proposal still in VOTING status shows the
external result PENDING. -/
theorem C3_tally_rule_witness :
    externalResult ProposalStatus.VOTING ProposalResult.PASSED = ProposalResult.PENDING ∧
    tallyResult [BallotAnswer.YES, BallotAnswer.NO, BallotAnswer.BLANK, BallotAnswer.YES] 6 =
      ProposalResult.PASSED ∧
    tallyResult [BallotAnswer.YES, BallotAnswer.NO, BallotAnswer.NO, BallotAnswer.BLANK] 6 =
      ProposalResult.REJECTED :=
  ⟨(C3_tally_rule [] 0 ProposalStatus.VOTING ProposalResult.PASSED).2.2
      (Or.inr (Or.inl rfl)),
   by decide, by decide⟩

end Stoa
